import Mathlib

/-!
Shallow embedding of the visaslotback monitoring pipeline
(src/appointment_monitor.py, src/mongodb.py) in Lean 4.

Conventions of the embedding:
* Python dicts with a fixed set of tracked month keys are modelled as
  insertion-ordered association lists `List (String × Option String)`;
  the list order is the Python dict's insertion order.
* A Python dict field that may be absent is modelled as an `Option` field
  (`none` = key absent).
* Timestamps are modelled as integers (seconds); ISO-string round-tripping
  in `save_appointment_data` is value-preserving and is elided.
* Async effects are modelled by explicit state passing; external outcomes
  (crawler initialization, extraction results, exceptions) are supplied by
  an `Env` oracle.
-/

namespace VisaSlot

/-! ### Slot values and parsing (src/appointment_monitor.py:606-609) -/

/-- Truthiness test used throughout the source for slot values:
`slots and slots != "0"` — non-`None`, non-empty, and not `"0"`. -/
def slotTruthyAvailable : Option String → Bool
  | none => false
  | some s => !(s == "") && !(s == "0")

/-- Decimal value of a digit list, most significant first: the value
Python `int` returns on a string of digits. -/
def digitsVal (l : List Char) : Nat :=
  l.foldl (fun n c => 10 * n + (c.toNat - 48)) 0

/-- `int(slots.replace("+", "")) if slots and slots != "0" else 0`
(src/appointment_monitor.py:608).  `replace("+", "")` removes every `'+'`
character, rendered here as a character-level filter.  For the
well-formed slot values of the data model (`None`, `"0"`, `"<digits>"`,
`"<digits>+"`) `digitsVal` agrees with Python `int`; on garbage strings
Python would raise where this total model returns a junk value the
theorems never exercise. -/
def parseSlot : Option String → Nat
  | none => 0
  | some s =>
      if s = "" ∨ s = "0" then 0
      else digitsVal (s.data.filter (fun c => c != '+'))

/-- Python `dict.get(month)` on a slots dict: `none` both when the key is
absent and when it is present with value `None` — matching Python, where
both yield `None`. -/
def dictGet (slots : List (String × Option String)) (month : String) : Option String :=
  match slots.find? (fun p => p.1 == month) with
  | none => none
  | some p => p.2

/-- Python `dict.get(month, "0")`: default `"0"` only when the key is
absent; a key present with value `None` still yields `None`. -/
def dictGetD0 (slots : List (String × Option String)) (month : String) : Option String :=
  match slots.find? (fun p => p.1 == month) with
  | none => some "0"
  | some p => p.2

/-- `any(slots and slots != "0" for slots in country_data["slots"].values())`
(src/appointment_monitor.py:570,593). -/
def anyAvailable (slots : List (String × Option String)) : Bool :=
  slots.any (fun p => slotTruthyAvailable p.2)

/-! ### Data model -/

/-- One entry of a snapshot's `countries` list
(built at src/appointment_monitor.py:458-464). -/
structure CountryData where
  country : String
  flag : String
  earliest_available : Option String
  url : String
  slots : List (String × Option String)
  deriving Repr, DecidableEq

/-- The appointment-data dict produced by `extract_appointment_data` and
stored by `save_appointment_data`.  `Option` fields model dict keys that
may be absent (the minimal error documents of
src/appointment_monitor.py:761-765,788 carry only `city`, `error`,
`timestamp`). -/
structure SnapshotDoc where
  city : String
  countries : Option (List CountryData)
  temporarily_unavailable : Option (List String)
  timestamp : Option Int
  error : Option String
  deriving Repr, DecidableEq

/-- The `"type"` tags of the change dicts built in `detect_changes`
(src/appointment_monitor.py:559-631). -/
inductive ChangeType where
  | new_availability
  | new_country
  | increased_availability
  | new_slots
  deriving Repr, DecidableEq

/-- A change dict as built by `detect_changes`.  The Python dicts are
heterogeneous; optional fields model keys absent for a given type.  The
Python key `"slots"` holds the whole slots map in `new_availability` /
`new_country` events (field `slots`, `[]` = absent) and a single raw value
in `new_slots` events (field `slot_value`). -/
structure Change where
  type : ChangeType
  month : Option String := none
  slots : List (String × Option String) := []
  previous_slots : Option String := none
  new_slots : Option String := none
  slot_value : Option String := none
  earliest_date : Option String
  url : String
  deriving Repr, DecidableEq

/-- The change dict of the no-previous-data branch
(src/appointment_monitor.py:571-576). -/
def newAvailabilityOf (cd : CountryData) : Change :=
  { type := ChangeType.new_availability, slots := cd.slots,
    earliest_date := cd.earliest_available, url := cd.url }

/-- The change dict of the country-absent-from-previous branch
(src/appointment_monitor.py:594-599). -/
def newCountryOf (cd : CountryData) : Change :=
  { type := ChangeType.new_country, slots := cd.slots,
    earliest_date := cd.earliest_available, url := cd.url }

/-- The change dict of the increased-availability branch
(src/appointment_monitor.py:612-619). -/
def increasedChange (cd : CountryData) (previous_slots : List (String × Option String))
    (month : String) (slots : Option String) : Change :=
  { type := ChangeType.increased_availability, month := some month,
    previous_slots := dictGetD0 previous_slots month, new_slots := slots,
    earliest_date := cd.earliest_available, url := cd.url }

/-- The change dict of the `new_slots` branch
(src/appointment_monitor.py:622-628). -/
def newSlotsOf (cd : CountryData) (month : String) (slots : Option String) : Change :=
  { type := ChangeType.new_slots, month := some month, slot_value := slots,
    earliest_date := cd.earliest_available, url := cd.url }

/-! ### Change detection (src/appointment_monitor.py:559-631) -/

/-- The per-country month loop of `detect_changes`
(src/appointment_monitor.py:606-629): iterate the current slots dict in
insertion order; on the first `current_value > previous_value` emit an
`increased_availability` change and break; otherwise on
`current_value > 0 and previous_value == 0` emit a `new_slots` change and
break. -/
def scanGo (cd : CountryData) (previous_slots : List (String × Option String)) :
    List (String × Option String) → Option Change
  | [] => none
  | (month, slots) :: rest =>
    let current_value := parseSlot slots
    let previous_value := parseSlot (dictGet previous_slots month)
    if previous_value < current_value then
      some (increasedChange cd previous_slots month slots)
    else if 0 < current_value ∧ previous_value = 0 then
      some (newSlotsOf cd month slots)
    else scanGo cd previous_slots rest

/-- Scan all tracked months of a country present in both snapshots. -/
def scanMonths (cd : CountryData) (previous_slots : List (String × Option String)) :
    Option Change :=
  scanGo cd previous_slots cd.slots

/-- Python dict assignment `changes[country] = c`: overwrite in place when
the key exists (keeping its position, as Python dicts do), else append. -/
def dictSet (l : List (String × Change)) (k : String) (v : Change) : List (String × Change) :=
  if l.any (fun p => p.1 == k) then l.map (fun p => if p.1 == k then (k, v) else p)
  else l ++ [(k, v)]

/-- One iteration of the country loop: record the change for `cd` if the
body produced one. -/
def applyCountry (f : CountryData → Option Change) (changes : List (String × Change))
    (cd : CountryData) : List (String × Change) :=
  match f cd with
  | some c => dictSet changes cd.country c
  | none => changes

/-- Country body when no previous data exists
(src/appointment_monitor.py:568-576). -/
def newAvailabilityChange (cd : CountryData) : Option Change :=
  if anyAvailable cd.slots then some (newAvailabilityOf cd) else none

/-- Country body when previous data exists (src/appointment_monitor.py:582-629):
look up the country in the previous snapshot's list; if absent, a
`new_country` change when any slot is available; if present, the month scan. -/
def countryChange (pl : List CountryData) (cd : CountryData) : Option Change :=
  match pl.find? (fun c => c.country == cd.country) with
  | none => if anyAvailable cd.slots then some (newCountryOf cd) else none
  | some previous_country_data => scanMonths cd previous_country_data.slots

/-- The pure core of `AppointmentMonitor.detect_changes`
(src/appointment_monitor.py:559-631), with the store read
`get_last_appointment_data(city)` factored out as the `previous` argument.
Returns the `changes` dict as an insertion-ordered association list. -/
def detectChangesPure : Option SnapshotDoc → SnapshotDoc → List (String × Change)
  | none, current =>
      (current.countries.getD []).foldl (applyCountry newAvailabilityChange) []
  | some previous, current =>
      (current.countries.getD []).foldl
        (applyCountry (countryChange (previous.countries.getD []))) []

/-! ### Snapshot store (src/mongodb.py:114-159) -/

/-- The appointments collection, in insertion order. -/
abbrev Store := List SnapshotDoc

/-- MongoDB `$set` at top-level-field granularity: fields present in the
update document overwrite; fields absent from it keep their stored value
(src/mongodb.py:127-131). -/
def setMerge (old d : SnapshotDoc) : SnapshotDoc :=
  { city := d.city,
    countries := d.countries <|> old.countries,
    temporarily_unavailable := d.temporarily_unavailable <|> old.temporarily_unavailable,
    timestamp := d.timestamp <|> old.timestamp,
    error := d.error <|> old.error }

/-- The normalization `save_appointment_data` applies before the update:
`data["city"] = city` and a default timestamp when absent
(src/mongodb.py:117-124). -/
def normalizeSave (city : String) (now : Int) (d : SnapshotDoc) : SnapshotDoc :=
  { d with city := city, timestamp := some (d.timestamp.getD now) }

/-- MongoDB `update_one({"city": city}, {"$set": data}, upsert=True)`:
`$set`-merge into the first document matching the city, or insert when
none matches. -/
def upsertByCity : Store → String → SnapshotDoc → Store
  | [], _, d => [d]
  | doc :: rest, city, d =>
      if doc.city == city then setMerge doc d :: rest
      else doc :: upsertByCity rest city d

/-- `MongoDBClient.save_appointment_data` (src/mongodb.py:114-136),
successful-write path. -/
def save_appointment_data (st : Store) (city : String) (d : SnapshotDoc) (now : Int) : Store :=
  upsertByCity st city (normalizeSave city now d)

/-- `MongoDBClient.get_last_appointment_data` (src/mongodb.py:138-148):
`find_one({"city": city}, sort=[("timestamp", -1)])`.  Under the
at-most-one-record-per-city invariant (which `save_appointment_data`
preserves, see the C2 theorems) the sort is immaterial and `find_one`
returns the unique match, modelled as `find?`. -/
def get_last_appointment_data (st : Store) (city : String) : Option SnapshotDoc :=
  st.find? (fun doc => doc.city == city)

/-! ### Users and notification dispatch
(src/mongodb.py:150-159, 246-282; src/appointment_monitor.py:633-658) -/

/-- A user document, restricted to the fields the dispatch and
subscription code reads.  `paymentDate` is the parsed ISO timestamp in
seconds. -/
structure User where
  email : Option String
  phone : Option String
  cityFrom : String
  countryFrom : String
  subscriptionType : String
  paymentDate : Int
  deriving Repr, DecidableEq

/-- `MongoDBClient.get_users_by_city` (src/mongodb.py:150-159):
`find({"cityFrom": city})` — the only filter is the city. -/
def get_users_by_city (users : List User) (city : String) : List User :=
  users.filter (fun u => u.cityFrom == city)

/-- Subscription end date from the plan code
(src/mongodb.py:265-272): monthly = 30 days, weekly = 7 days, anything
else is skipped (`none`). -/
def subscriptionEnd (subscription_type : String) (payment_date : Int) : Option Int :=
  if subscription_type = "monthly" then some (payment_date + 30 * 86400)
  else if subscription_type = "weekly" then some (payment_date + 7 * 86400)
  else none

/-- `MongoDBClient.get_active_subscriptions` (src/mongodb.py:246-282):
filter by `cityFrom` and `countryFrom`, then keep users whose plan code is
known and for whom `current_time <= end_date`. -/
def get_active_subscriptions (users : List User) (city country : String)
    (current_time : Int) : List User :=
  (users.filter (fun u => u.cityFrom == city && u.countryFrom == country)).filter
    (fun u =>
      match subscriptionEnd u.subscriptionType u.paymentDate with
      | some end_date => decide (current_time ≤ end_date)
      | none => false)

/-- The `NotificationData` dataclass (src/notification_service.py:13-17),
the one class of that name in the repository and the one
`appointment_monitor` imports (src/appointment_monitor.py:17).  Its only
fields are `city`, `changes`, `timestamp`. -/
structure NotificationData where
  city : String
  changes : List (String × Change)
  timestamp : Int
  deriving Repr, DecidableEq

/-- The keyword parameters of the dataclass-generated `NotificationData`
init: exactly its field names, all required (no field has a default). -/
def notificationDataInitKeywords : List String := ["city", "changes", "timestamp"]

/-- The keyword arguments `notify_users` passes when constructing a
`NotificationData` (src/appointment_monitor.py:644-651): `city=`,
`country=`, `message=`, `change_type=`, `url=`, `timestamp=`. -/
def notify_users_callKeywords : List String :=
  ["city", "country", "message", "change_type", "url", "timestamp"]

/-- A Python call binding only keyword arguments succeeds iff every given
keyword is accepted and every required parameter is given; otherwise the
call raises `TypeError` (unexpected keyword argument / missing
argument). -/
def keywordCallOk (accepted given : List String) : Bool :=
  given.all (fun k => accepted.contains k) && accepted.all (fun k => given.contains k)

/-- `AppointmentMonitor.notify_users` (src/appointment_monitor.py:633-658).
After the empty-changes and empty-users early returns, the body's first
iteration constructs `NotificationData` with the call keywords above; the
imported dataclass accepts only `city`/`changes`/`timestamp`, so the
construction raises `TypeError` before the first `notify_user` call and
the exception propagates to the caller.  The `keywordCallOk` branch
transcribes the per-(change, user) fan-out that would run if the
construction succeeded; the mismatch (provable, not assumed) makes it
unreachable.  Returns `Except.error` for a raised exception, else the
(user, change-country) delivery pairs performed. -/
def notify_users (users : List User) (city : String) (changes : List (String × Change)) :
    Except String (List (User × String)) :=
  if changes.isEmpty then Except.ok []
  else
    let us := get_users_by_city users city
    if us.isEmpty then Except.ok []
    else if keywordCallOk notificationDataInitKeywords notify_users_callKeywords then
      Except.ok (changes.foldl (fun acc p => acc ++ us.map (fun u => (u, p.1))) [])
    else
      Except.error "TypeError: NotificationData got an unexpected keyword argument"

/-! ### Monitoring cycle (src/appointment_monitor.py:687-819)

The orchestration is modelled as explicit state passing.  External
outcomes — crawler initialization per batch, mid-batch re-initialization,
and the per-city extraction result (including an exception raised while
processing a city, which line 785 catches) — are supplied by an `Env`
oracle.  `extract_appointment_data` itself catches all of its own
exceptions and always returns a data dict, so its internals are abstracted
into `Env.cityResult`. -/

/-- Outcome of processing one city inside the batch loop's `try` block:
either `extract_appointment_data` returns a data dict, or an exception is
raised (caught at src/appointment_monitor.py:785). -/
inductive CityOutcome where
  | ok (d : SnapshotDoc)
  | raiseExc (msg : String)
  deriving Repr, DecidableEq

/-- Oracle for the external, nondeterministic outcomes of one cycle. -/
structure Env where
  now : Int
  setupOk : Nat → Bool
  resetupOk : String → Bool
  cityResult : String → CityOutcome
  bodyFail : Bool

/-- The mutable fields of `AppointmentMonitor` the cycle reads and writes
(src/appointment_monitor.py:123-134), plus the store. -/
structure MonitorState where
  monitoring_in_progress : Bool
  last_monitoring_start : Option Int
  last_monitoring_end : Option Int
  crawler : Option Unit
  store : Store
  deriving Repr, DecidableEq

/-- Observable events of one cycle, for stating which work ran. -/
inductive Ev where
  | batchStart (i : Nat)
  | batchSkipped (i : Nat)
  | cityStart (city : String)
  | cityError (city : String) (msg : String)
  | savedDoc (city : String)
  | detected (city : String) (changes : List (String × Change))
  | notified (city : String) (sent : List (User × String))
  deriving Repr, DecidableEq

/-- The minimal error document saved when processing a city fails
(src/appointment_monitor.py:761-765, 788): only `city`, `error`,
`timestamp`. -/
def errorDoc (city msg : String) (now : Int) : SnapshotDoc :=
  { city := city, countries := none, temporarily_unavailable := none,
    timestamp := some now, error := some msg }

/-- State after recording an error snapshot for a city. -/
def errorSaveState (s : MonitorState) (city msg : String) (now : Int) : MonitorState :=
  { s with store := save_appointment_data s.store city (errorDoc city msg now) now }

/-- The per-city success path (src/appointment_monitor.py:770-784):
extract, save the snapshot, and — only when `error` is not set — detect
changes against the store's last-known snapshot (now the one just saved)
and, when any changes were produced, call `notify_users`.  An exception
raised by `notify_users` (the `NotificationData` `TypeError`) lands in
the same per-city `except` handler at lines 785-789 as a `raiseExc`
extraction outcome: a minimal error document is saved and the loop moves
on. -/
def extractAndHandle (users : List User) (env : Env) (s : MonitorState) (city : String) :
    MonitorState × List Ev :=
  match env.cityResult city with
  | CityOutcome.raiseExc msg =>
      (errorSaveState s city msg env.now, [Ev.cityError city msg])
  | CityOutcome.ok current =>
      let st1 := save_appointment_data s.store city current env.now
      if current.error = none then
        let changes := detectChangesPure (get_last_appointment_data st1 city) current
        if changes.isEmpty then
          ({ s with store := st1 }, [Ev.savedDoc city, Ev.detected city changes])
        else
          match notify_users users city changes with
          | Except.ok sent =>
              ({ s with store := st1 },
               [Ev.savedDoc city, Ev.detected city changes, Ev.notified city sent])
          | Except.error msg =>
              ({ s with store := save_appointment_data st1 city (errorDoc city msg env.now) env.now },
               [Ev.savedDoc city, Ev.detected city changes, Ev.cityError city msg])
      else
        ({ s with store := st1 }, [Ev.savedDoc city])

/-- One city of a batch (src/appointment_monitor.py:747-792): if the
crawler reference was lost, re-initialize it; when re-initialization
fails, save an error document and skip the city (lines 752-767);
otherwise extract and handle. -/
def processCity (users : List User) (env : Env) (s : MonitorState) (city : String) :
    MonitorState × List Ev :=
  if s.crawler = none then
    if env.resetupOk city then
      extractAndHandle users env { s with crawler := some () } city
    else
      (errorSaveState s city "Failed to initialize crawler" env.now,
       [Ev.cityError city "Failed to initialize crawler"])
  else
    extractAndHandle users env s city

/-- The city loop of one batch (src/appointment_monitor.py:747-792). -/
def runCities (users : List User) (env : Env) :
    MonitorState → List (String × String) → MonitorState × List Ev
  | s, [] => (s, [])
  | s, (_country, city) :: rest =>
      let r1 := processCity users env s city
      let r2 := runCities users env r1.1 rest
      (r2.1, Ev.cityStart city :: (r1.2 ++ r2.2))

/-- One batch (src/appointment_monitor.py:729-801): clean up the crawler,
set up a fresh one; on initialization failure skip the whole batch;
otherwise run the city loop and clean up the crawler afterwards. -/
def runBatch (users : List User) (env : Env) (i : Nat) (s : MonitorState)
    (batch : List (String × String)) : MonitorState × List Ev :=
  let s0 := { s with crawler := none }
  if env.setupOk i then
    let r := runCities users env { s0 with crawler := some () } batch
    ({ r.1 with crawler := none }, Ev.batchStart i :: r.2)
  else
    (s0, [Ev.batchStart i, Ev.batchSkipped i])

/-- The batch loop (src/appointment_monitor.py:729-801), indexed batches
processed strictly in order. -/
def runBatches (users : List User) (env : Env) :
    MonitorState → Nat → List (List (String × String)) → MonitorState × List Ev
  | s, _, [] => (s, [])
  | s, i, b :: rest =>
      let r1 := runBatch users env i s b
      let r2 := runBatches users env r1.1 (i + 1) rest
      (r2.1, r1.2 ++ r2.2)

/-- `all_cities[i:i+batch_size]` partitioning with `batch_size = 5`
(src/appointment_monitor.py:720,729-730). -/
def chunksOf {α : Type} : List α → List (List α)
  | [] => []
  | x :: xs => (x :: xs.take 4) :: chunksOf (xs.drop 4)
termination_by l => l.length
decreasing_by simp [List.length_drop]; omega

/-- The static city roster (src/appointment_monitor.py:43-50). -/
def cities_by_country : List (String × List String) :=
  [("Canada", ["Edmonton", "Montreal", "Ottawa", "Toronto", "Vancouver"]),
   ("Ireland", ["Dublin"]),
   ("United Arab Emirates", ["Abu Dhabi", "Dubai"]),
   ("United Kingdom", ["Birmingham", "Cardiff", "Edinburgh", "London", "Manchester"]),
   ("United States", ["Atlanta", "Boston", "Chicago", "Houston", "Los Angeles",
     "Miami", "New York", "San Francisco", "Seattle", "Washington DC"])]

/-- The flattened `(country, city)` roster (src/appointment_monitor.py:723-726). -/
def all_cities : List (String × String) :=
  cities_by_country.foldl (fun acc p => acc ++ p.2.map (fun c => (p.1, c))) []

/-- Result of one `monitor_appointments` invocation: final monitor state,
the trace of work performed, whether a new cycle body was entered, and
whether an exception escaped the entry point. -/
structure MonitorResult where
  state : MonitorState
  trace : List Ev
  ranCycle : Bool
  raised : Bool
  deriving Repr, DecidableEq

/-- `AppointmentMonitor.monitor_appointments` (src/appointment_monitor.py:687-819).
Entry check (lines 689-709): when a cycle is in progress and the elapsed
time exceeds 300 seconds, force-reset the flag and clean up the crawler,
then return; when in progress and not stale (or with no recorded start),
skip.  Otherwise acquire the flag, run the batch loop inside
`try/except`, and in `finally` clean up the crawler, clear the flag and
record the end timestamp (lines 803-819).  `Env.bodyFail` models an
exception escaping the batch loop, caught by the `except` at line 803;
`cleanup_crawler` (lines 199-223) catches all of its own exceptions and
always clears the crawler reference, so the `finally` block cannot raise
and no exception propagates out. -/
def monitor_appointments (users : List User) (env : Env) (s : MonitorState) : MonitorResult :=
  if s.monitoring_in_progress then
    match s.last_monitoring_start with
    | some t0 =>
        if 300 < env.now - t0 then
          { state := { s with monitoring_in_progress := false, crawler := none },
            trace := [], ranCycle := false, raised := false }
        else
          { state := s, trace := [], ranCycle := false, raised := false }
    | none => { state := s, trace := [], ranCycle := false, raised := false }
  else
    let s1 := { s with monitoring_in_progress := true, last_monitoring_start := some env.now }
    let r :=
      if env.bodyFail then (s1, ([] : List Ev))
      else runBatches users env s1 0 (chunksOf all_cities)
    { state := { r.1 with
                   crawler := none, monitoring_in_progress := false,
                   last_monitoring_end := some env.now },
      trace := r.2, ranCycle := true, raised := false }

/-! ### Concrete instances used by counterexamples and witnesses -/

/-- A country with one available slot in MAY. -/
def cdF : CountryData :=
  { country := "France", flag := "f", earliest_available := some "05 May",
    url := "u", slots := [("MAY", some "3+"), ("JUN", none)] }

/-- A snapshot containing `cdF` only. -/
def snapF : SnapshotDoc :=
  { city := "Toronto", countries := some [cdF], temporarily_unavailable := some [],
    timestamp := some 0, error := none }

/-- Previous-cycle country data: MAY `"2"`, JUN `"0"` (spec §8 example). -/
def cdPrev : CountryData :=
  { country := "France", flag := "f", earliest_available := none, url := "u",
    slots := [("MAY", some "2"), ("JUN", some "0")] }

/-- Current-cycle country data: MAY `"2"`, JUN `"3"` (spec §8 example). -/
def cdCur : CountryData :=
  { country := "France", flag := "f", earliest_available := none, url := "u",
    slots := [("MAY", some "2"), ("JUN", some "3")] }

/-- Previous-cycle snapshot wrapping `cdPrev`. -/
def snapPrev : SnapshotDoc :=
  { city := "Toronto", countries := some [cdPrev], temporarily_unavailable := some [],
    timestamp := some 0, error := none }

/-- Current-cycle snapshot wrapping `cdCur`. -/
def snapCur : SnapshotDoc :=
  { city := "Toronto", countries := some [cdCur], temporarily_unavailable := some [],
    timestamp := some 60, error := none }

/-- A user with an unrecognized plan code watching France from Toronto. -/
def uUnknown : User :=
  { email := some "a@example.com", phone := none, cityFrom := "Toronto",
    countryFrom := "France", subscriptionType := "unknown", paymentDate := 0 }

/-- A weekly subscriber whose window started at time 0. -/
def uWeekly : User :=
  { email := some "w@example.com", phone := none, cityFrom := "Toronto",
    countryFrom := "France", subscriptionType := "weekly", paymentDate := 0 }

/-- A change for Germany, used to show dispatch ignores the watched country. -/
def chG : Change :=
  { type := ChangeType.increased_availability, month := some "JUN",
    previous_slots := some "0", new_slots := some "3",
    earliest_date := none, url := "u2" }

/-- Monitor state holding the previous-cycle snapshot, crawler ready. -/
def sReady : MonitorState :=
  { monitoring_in_progress := false, last_monitoring_start := none,
    last_monitoring_end := none, crawler := some (), store := [snapPrev] }

/-- Oracle whose extraction of any city yields `snapCur`. -/
def envOk : Env :=
  { now := 60, setupOk := fun _ => true, resetupOk := fun _ => true,
    cityResult := fun _ => CityOutcome.ok snapCur, bodyFail := false }

/-- Oracle that raises while processing any city, with crawler setup failing
on batch 0 and succeeding afterwards. -/
def envFail : Env :=
  { now := 60, setupOk := fun i => decide (0 < i), resetupOk := fun _ => true,
    cityResult := fun _ => CityOutcome.raiseExc "boom", bodyFail := false }

/-- Oracle for the orchestrator-level claims: the batch loop itself fails. -/
def envBody : Env :=
  { now := 60, setupOk := fun _ => true, resetupOk := fun _ => true,
    cityResult := fun _ => CityOutcome.raiseExc "boom", bodyFail := true }

/-- An oracle clock reading far past the staleness threshold. -/
def envLate : Env :=
  { now := 1000, setupOk := fun _ => true, resetupOk := fun _ => true,
    cityResult := fun _ => CityOutcome.ok snapCur, bodyFail := false }

/-- An idle monitor state with an empty store. -/
def sIdle : MonitorState :=
  { monitoring_in_progress := false, last_monitoring_start := none,
    last_monitoring_end := none, crawler := none, store := [] }

/-- A monitor state whose cycle lock is held since time 0. -/
def sBusy : MonitorState :=
  { monitoring_in_progress := true, last_monitoring_start := some 0,
    last_monitoring_end := none, crawler := some (), store := [] }

/-! ### Helper lemmas -/

/-- `find?` over a country list with pairwise-distinct names returns the
member itself when keyed by its own name. -/
theorem find?_country_eq :
    ∀ (l : List CountryData) (cd : CountryData),
      (l.map (fun c => c.country)).Nodup → cd ∈ l →
      l.find? (fun c => c.country == cd.country) = some cd := by
  intro l
  induction l with
  | nil => intro cd _ h; cases h
  | cons b tl ih =>
      intro cd hnd hmem
      rcases List.mem_cons.mp hmem with hb | htl
      · subst hb
        simp [List.find?_cons]
      · have hne : b.country ≠ cd.country := by
          have hnotin : b.country ∉ tl.map (fun c => c.country) :=
            (List.nodup_cons.mp hnd).1
          intro hEq
          exact hnotin (hEq ▸ List.mem_map_of_mem (fun c => c.country) htl)
        have hb : (b.country == cd.country) = false := by
          simpa using hne
        simp only [List.find?_cons, hb]
        exact ih cd (List.nodup_cons.mp hnd).2 htl

/-- `find?` over an association list with pairwise-distinct keys returns
the member pair itself when keyed by its own key. -/
theorem find?_pair_eq {β : Type} :
    ∀ (l : List (String × β)) (m : String) (v : β),
      (l.map Prod.fst).Nodup → (m, v) ∈ l →
      l.find? (fun p => p.1 == m) = some (m, v) := by
  intro l
  induction l with
  | nil => intro m v _ h; cases h
  | cons b tl ih =>
      intro m v hnd hmem
      rcases List.mem_cons.mp hmem with hb | htl
      · subst hb
        simp [List.find?_cons]
      · have hne : b.1 ≠ m := by
          have hnotin : b.1 ∉ tl.map Prod.fst := (List.nodup_cons.mp hnd).1
          intro hEq
          have : m ∈ tl.map Prod.fst := by
            have := List.mem_map_of_mem Prod.fst htl
            simpa using this
          exact hnotin (hEq ▸ this)
        have hb : (b.1 == m) = false := by simpa using hne
        simp only [List.find?_cons, hb]
        exact ih m v (List.nodup_cons.mp hnd).2 htl

/-- `dictGet` on an association list with distinct keys returns a member
pair's own value. -/
theorem dictGet_eq_of_mem {l : List (String × Option String)} {m : String}
    {v : Option String} (hnd : (l.map Prod.fst).Nodup) (hmem : (m, v) ∈ l) :
    dictGet l m = v := by
  unfold dictGet
  rw [find?_pair_eq l m v hnd hmem]

/-- Appending behavior of Python dict assignment when the key is fresh. -/
theorem dictSet_not_mem (l : List (String × Change)) (k : String) (v : Change)
    (h : ∀ p ∈ l, p.1 ≠ k) : dictSet l k v = l ++ [(k, v)] := by
  unfold dictSet
  have hany : (l.any (fun p => p.1 == k)) = false := by
    rw [List.any_eq_false]
    intro p hp
    simpa using h p hp
  rw [hany]
  simp

/-- Members of a Python dict assignment are the new pair or old entries. -/
theorem mem_dictSet {l : List (String × Change)} {k : String} {v : Change}
    {p : String × Change} (hp : p ∈ dictSet l k v) : p = (k, v) ∨ p ∈ l := by
  unfold dictSet at hp
  by_cases hany : (l.any (fun q => q.1 == k)) = true
  · rw [if_pos hany] at hp
    rcases List.mem_map.mp hp with ⟨q, hq, hpq⟩
    by_cases hk : (q.1 == k) = true
    · left
      simp only [hk, if_true] at hpq
      exact hpq.symm
    · right
      simp only [Bool.not_eq_true] at hk
      simp only [hk, Bool.false_eq_true, if_false] at hpq
      exact hpq ▸ hq
  · rw [if_neg hany] at hp
    rcases List.mem_append.mp hp with h | h
    · right; exact h
    · left; simpa using h

/-- The country loop writes, in current-snapshot order, exactly the
changes produced by the per-country body, provided country names are
pairwise distinct and the keys accumulated so far do not occur among
them. -/
theorem foldl_applyCountry (f : CountryData → Option Change) :
    ∀ (cl : List CountryData) (acc : List (String × Change)),
      (cl.map (fun c => c.country)).Nodup →
      (∀ p ∈ acc, p.1 ∉ cl.map (fun c => c.country)) →
      cl.foldl (applyCountry f) acc
        = acc ++ cl.filterMap (fun cd => (f cd).map (fun ch => (cd.country, ch))) := by
  intro cl
  induction cl with
  | nil => intro acc _ _; simp
  | cons cd tl ih =>
      intro acc hnd hacc
      have hfresh : ∀ p ∈ acc, p.1 ≠ cd.country := by
        intro p hp hEq
        exact hacc p hp (by
          rw [hEq]
          exact List.mem_map_of_mem (fun c => c.country) (List.mem_cons_self cd tl))
      have hstep : applyCountry f acc cd
          = acc ++ (((f cd).map (fun ch => (cd.country, ch))).toList) := by
        cases hf : f cd with
        | none => simp [applyCountry, hf]
        | some c => simp [applyCountry, hf, dictSet_not_mem acc cd.country c hfresh]
      rw [List.foldl_cons, hstep]
      have hnd' : (tl.map (fun c => c.country)).Nodup := (List.nodup_cons.mp hnd).2
      have hacc' : ∀ p ∈ acc ++ ((f cd).map (fun ch => (cd.country, ch))).toList,
          p.1 ∉ tl.map (fun c => c.country) := by
        intro p hp
        rcases List.mem_append.mp hp with h | h
        · intro hmem
          exact hacc p h (List.mem_map.mpr
            (by
              rcases List.mem_map.mp hmem with ⟨x, hx, hxp⟩
              exact ⟨x, List.mem_cons_of_mem cd hx, hxp⟩))
        · cases hf : f cd with
          | none => rw [hf] at h; simp at h
          | some c =>
              rw [hf] at h
              simp at h
              rw [h]
              exact (List.nodup_cons.mp hnd).1
      rw [ih _ hnd' hacc']
      cases hf : f cd with
      | none => simp [hf]
      | some c => simp [hf]

/-- `detect_changes` with no previous record, characterized. -/
theorem detectChangesPure_none_eq (current : SnapshotDoc) (cl : List CountryData)
    (hc : current.countries = some cl)
    (hnd : (cl.map (fun c => c.country)).Nodup) :
    detectChangesPure none current
      = cl.filterMap
          (fun cd => (newAvailabilityChange cd).map (fun ch => (cd.country, ch))) := by
  have h0 : detectChangesPure none current
      = (current.countries.getD []).foldl (applyCountry newAvailabilityChange) [] := rfl
  rw [h0, hc, Option.getD_some]
  exact foldl_applyCountry newAvailabilityChange cl [] hnd (by intro p hp; cases hp)

/-- `detect_changes` with a previous record, characterized. -/
theorem detectChangesPure_some_eq (previous current : SnapshotDoc)
    (cl : List CountryData) (hc : current.countries = some cl)
    (hnd : (cl.map (fun c => c.country)).Nodup) :
    detectChangesPure (some previous) current
      = cl.filterMap
          (fun cd => (countryChange (previous.countries.getD []) cd).map
            (fun ch => (cd.country, ch))) := by
  have h0 : detectChangesPure (some previous) current
      = (current.countries.getD []).foldl
          (applyCountry (countryChange (previous.countries.getD []))) [] := rfl
  rw [h0, hc, Option.getD_some]
  exact foldl_applyCountry _ cl [] hnd (by intro p hp; cases hp)

/-- The month scan returns the first month (in the current slots dict's
insertion order) whose current value strictly exceeds its previous value,
as an `increased_availability` change; `none` when no month increases. -/
theorem scanGo_eq_find? (cd : CountryData) (ps : List (String × Option String)) :
    ∀ l : List (String × Option String),
      scanGo cd ps l
        = (l.find? (fun p => decide (parseSlot (dictGet ps p.1) < parseSlot p.2))).map
            (fun p => increasedChange cd ps p.1 p.2) := by
  intro l
  induction l with
  | nil => simp [scanGo]
  | cons hd tl ih =>
      obtain ⟨month, slots⟩ := hd
      by_cases h : parseSlot (dictGet ps month) < parseSlot slots
      · rw [List.find?_cons_of_pos _ (by simpa using h)]
        simp [scanGo, h]
      · have h2 : ¬ (0 < parseSlot slots ∧ parseSlot (dictGet ps month) = 0) := by
          omega
        rw [List.find?_cons_of_neg _ (by simpa using h)]
        simp only [scanGo, h, h2, if_false]
        exact ih

/-- The month scan can only ever produce `increased_availability`: the
`new_slots` guard `cur > 0 and prev == 0` is checked strictly after
`cur > prev`, which it implies. -/
theorem scanGo_type (cd : CountryData) (ps : List (String × Option String)) :
    ∀ (l : List (String × Option String)) (c : Change),
      scanGo cd ps l = some c → c.type = ChangeType.increased_availability := by
  intro l
  induction l with
  | nil => intro c h; simp [scanGo] at h
  | cons hd tl ih =>
      obtain ⟨month, slots⟩ := hd
      intro c h
      by_cases h1 : parseSlot (dictGet ps month) < parseSlot slots
      · simp only [scanGo, h1, if_true] at h
        cases h
        rfl
      · have h2 : ¬ (0 < parseSlot slots ∧ parseSlot (dictGet ps month) = 0) := by
          omega
        simp only [scanGo, h1, h2, if_false] at h
        exact ih c h

/-- Reading back the city just saved yields the merge of the prior record
(if any) with the normalized document. -/
theorem get_last_save (st : Store) (city : String) (d : SnapshotDoc) (now : Int) :
    get_last_appointment_data (save_appointment_data st city d now) city
      = some (match get_last_appointment_data st city with
              | none => normalizeSave city now d
              | some old => setMerge old (normalizeSave city now d)) := by
  unfold save_appointment_data
  induction st with
  | nil =>
      have h1 : ((normalizeSave city now d).city == city) = true := by
        have he : (normalizeSave city now d).city = city := rfl
        simp [he]
      simp [upsertByCity, get_last_appointment_data, List.find?_cons, h1]
  | cons doc rest ih =>
      by_cases hm : (doc.city == city) = true
      · have h1 : ((setMerge doc (normalizeSave city now d)).city == city) = true := by
          have he : (setMerge doc (normalizeSave city now d)).city = city := rfl
          simp [he]
        simp only [upsertByCity, hm, if_true, get_last_appointment_data,
          List.find?_cons, h1]
      · have hm' : (doc.city == city) = false := by
          simpa using hm
        simp only [upsertByCity, hm', Bool.false_eq_true, if_false,
          get_last_appointment_data, List.find?_cons] at ih ⊢
        exact ih

/-- Upserting a document for one city leaves per-city record counts for
every other city unchanged. -/
theorem countP_upsert_ne (city c' : String) (d : SnapshotDoc)
    (hd : d.city = city) (hne : c' ≠ city) :
    ∀ st : Store,
      (upsertByCity st city d).countP (fun doc => doc.city == c')
        = st.countP (fun doc => doc.city == c') := by
  have hdc : (d.city == c') = false := by
    simp [hd]
    exact Ne.symm hne
  intro st
  induction st with
  | nil => simp [upsertByCity, List.countP_cons, hdc]
  | cons doc rest ih =>
      by_cases hm : (doc.city == city) = true
      · have h1 : ((setMerge doc d).city == c') = false := by
          have he : (setMerge doc d).city = d.city := rfl
          rw [he, hdc]
        have h2 : (doc.city == c') = false := by
          have he : doc.city = city := by simpa using hm
          simp [he]
          exact Ne.symm hne
        simp only [upsertByCity, hm, if_true]
        simp [List.countP_cons, h1, h2]
      · have hm' : (doc.city == city) = false := by simpa using hm
        simp only [upsertByCity, hm', Bool.false_eq_true, if_false]
        simp [List.countP_cons, ih]

/-- Upserting a document for a city makes that city's record count
exactly `max 1` of what it was. -/
theorem countP_upsert_eq (city : String) (d : SnapshotDoc) (hd : d.city = city) :
    ∀ st : Store,
      (upsertByCity st city d).countP (fun doc => doc.city == city)
        = max 1 (st.countP (fun doc => doc.city == city)) := by
  have hdc : (d.city == city) = true := by simp [hd]
  intro st
  induction st with
  | nil => simp [upsertByCity, List.countP_cons, hdc]
  | cons doc rest ih =>
      by_cases hm : (doc.city == city) = true
      · have h1 : ((setMerge doc d).city == city) = true := by
          have he : (setMerge doc d).city = d.city := rfl
          rw [he, hdc]
        simp only [upsertByCity, hm, if_true]
        simp [List.countP_cons, h1, hm]
      · have hm' : (doc.city == city) = false := by simpa using hm
        simp only [upsertByCity, hm', Bool.false_eq_true, if_false]
        simp [List.countP_cons, hm', ih]

/-- Saving preserves the at-most-one-record-per-city invariant, for every
city. -/
theorem countP_save_le (st : Store) (city : String) (d : SnapshotDoc) (now : Int)
    (c' : String) (h : st.countP (fun doc => doc.city == c') ≤ 1) :
    (save_appointment_data st city d now).countP (fun doc => doc.city == c') ≤ 1 := by
  unfold save_appointment_data
  by_cases hc : c' = city
  · subst hc
    rw [countP_upsert_eq c' (normalizeSave c' now d) rfl st]
    omega
  · rw [countP_upsert_ne city c' (normalizeSave city now d) rfl hc st]
    exact h

/-- Membership in a membership-preserving country fold: every recorded
change comes from the per-country body or the initial accumulator. -/
theorem foldl_applyCountry_types (f : CountryData → Option Change)
    (hf : ∀ cd c, f cd = some c → c.type ≠ ChangeType.new_slots) :
    ∀ (cl : List CountryData) (acc : List (String × Change)),
      (∀ q ∈ acc, q.2.type ≠ ChangeType.new_slots) →
      ∀ q ∈ cl.foldl (applyCountry f) acc, q.2.type ≠ ChangeType.new_slots := by
  intro cl
  induction cl with
  | nil => intro acc hacc q hq; exact hacc q hq
  | cons cd tl ih =>
      intro acc hacc q hq
      rw [List.foldl_cons] at hq
      refine ih _ ?_ q hq
      intro r hr
      unfold applyCountry at hr
      cases hfc : f cd with
      | none => rw [hfc] at hr; exact hacc r hr
      | some c =>
          rw [hfc] at hr
          rcases mem_dictSet hr with h | h
          · rw [h]; exact hf cd c hfc
          · exact hacc r h

/-- The no-previous country body never yields `new_slots`. -/
theorem newAvailabilityChange_type (cd : CountryData) (c : Change)
    (h : newAvailabilityChange cd = some c) : c.type ≠ ChangeType.new_slots := by
  unfold newAvailabilityChange at h
  by_cases ha : anyAvailable cd.slots = true
  · rw [if_pos ha] at h
    cases h
    simp [newAvailabilityOf]
  · rw [if_neg ha] at h
    cases h

/-- The with-previous country body never yields `new_slots`. -/
theorem countryChange_type (pl : List CountryData) (cd : CountryData) (c : Change)
    (h : countryChange pl cd = some c) : c.type ≠ ChangeType.new_slots := by
  unfold countryChange at h
  cases hfind : pl.find? (fun x => x.country == cd.country) with
  | none =>
      rw [hfind] at h
      by_cases ha : anyAvailable cd.slots = true
      · rw [if_pos ha] at h
        cases h
        simp [newCountryOf]
      · rw [if_neg ha] at h
        cases h
  | some pcd =>
      rw [hfind] at h
      have ht := scanGo_type cd pcd.slots cd.slots c h
      rw [ht]
      simp

/-- Diffing a snapshot against any record carrying the same country list
produces no changes, provided country names and each country's month keys
are pairwise distinct (as Python dict keys are by construction). -/
theorem detect_self_empty (prevDoc current : SnapshotDoc) (cl : List CountryData)
    (hc : current.countries = some cl)
    (hpc : prevDoc.countries = some cl)
    (hnames : (cl.map (fun c => c.country)).Nodup)
    (hmonths : ∀ cd ∈ cl, (cd.slots.map Prod.fst).Nodup) :
    detectChangesPure (some prevDoc) current = [] := by
  rw [detectChangesPure_some_eq prevDoc current cl hc hnames, hpc]
  simp only [Option.getD_some]
  rw [List.filterMap_eq_nil]
  intro cd hcd
  have hccd : countryChange cl cd = none := by
    unfold countryChange
    rw [find?_country_eq cl cd hnames hcd]
    show scanGo cd cd.slots cd.slots = none
    rw [scanGo_eq_find? cd cd.slots cd.slots]
    have hfn : cd.slots.find?
        (fun p => decide (parseSlot (dictGet cd.slots p.1) < parseSlot p.2)) = none := by
      rw [List.find?_eq_none]
      intro p hp
      obtain ⟨m, v⟩ := p
      have hv : dictGet cd.slots m = v := dictGet_eq_of_mem (hmonths cd hcd) hp
      simp [hv]
    rw [hfn]
    rfl
  rw [hccd]
  rfl

/-- C4 (amended): the active-subscription filter selects a subscriber iff
the city and country match and `T ≤ start + duration`, where duration is
7 days for plan code `weekly` and 30 days for plan code `monthly` — a
closed upper bound (active at exactly `start + 7 days` under a weekly
plan) with no lower-bound check, and fail-closed on every other plan
code. -/
theorem get_active_subscriptions_mem_iff (users : List User) (city country : String)
    (T : Int) (u : User) :
    u ∈ get_active_subscriptions users city country T
      ↔ u ∈ users ∧ u.cityFrom = city ∧ u.countryFrom = country ∧
          ((u.subscriptionType = "monthly" ∧ T ≤ u.paymentDate + 30 * 86400)
            ∨ (u.subscriptionType = "weekly" ∧ T ≤ u.paymentDate + 7 * 86400)) := by
  unfold get_active_subscriptions subscriptionEnd
  simp only [List.mem_filter, Bool.and_eq_true, beq_iff_eq]
  constructor
  · rintro ⟨⟨hu, hc, hk⟩, hact⟩
    refine ⟨hu, hc, hk, ?_⟩
    by_cases hm : u.subscriptionType = "monthly"
    · rw [if_pos hm] at hact
      simp only [decide_eq_true_eq] at hact
      exact Or.inl ⟨hm, hact⟩
    · rw [if_neg hm] at hact
      by_cases hw : u.subscriptionType = "weekly"
      · rw [if_pos hw] at hact
        simp only [decide_eq_true_eq] at hact
        exact Or.inr ⟨hw, hact⟩
      · rw [if_neg hw] at hact
        cases hact
  · rintro ⟨hu, hc, hk, hcase⟩
    refine ⟨⟨hu, hc, hk⟩, ?_⟩
    rcases hcase with ⟨hm, hle⟩ | ⟨hw, hle⟩
    · rw [if_pos hm]
      simpa using hle
    · have hm : ¬ u.subscriptionType = "monthly" := by
        rw [hw]; decide
      rw [if_neg hm, if_pos hw]
      simpa using hle

/-! ### Claim theorems -/

/-- C1: in the per-target success path the snapshot is persisted BEFORE
change detection (src/appointment_monitor.py:774 vs 779), so the detector
reads back the record just saved and compares the new reading against
itself: for every successfully extracted snapshot the pipeline produces an
empty change set and dispatches no notifications, whatever the store held
before.  (The claim — detect against the prior cycle's reading, persist
only afterwards — is what the code would need to do for detection to ever
fire.) -/
theorem save_then_detect_no_changes
    (users : List User) (env : Env) (s : MonitorState) (city : String)
    (current : SnapshotDoc) (cl : List CountryData)
    (hres : env.cityResult city = CityOutcome.ok current)
    (hcrawler : s.crawler = some ())
    (herr : current.error = none)
    (hcl : current.countries = some cl)
    (hnames : (cl.map (fun c => c.country)).Nodup)
    (hmonths : ∀ cd ∈ cl, (cd.slots.map Prod.fst).Nodup) :
    processCity users env s city
      = ({ s with store := save_appointment_data s.store city current env.now },
         [Ev.savedDoc city, Ev.detected city []]) := by
  have hpc : (match get_last_appointment_data s.store city with
              | none => normalizeSave city env.now current
              | some old => setMerge old (normalizeSave city env.now current)).countries
      = some cl := by
    cases hgl : get_last_appointment_data s.store city with
    | none => simpa [normalizeSave] using hcl
    | some old => simp [setMerge, normalizeSave, hcl]
  have hdet : detectChangesPure
      (get_last_appointment_data (save_appointment_data s.store city current env.now) city)
      current = [] := by
    rw [get_last_save s.store city current env.now]
    exact detect_self_empty _ current cl hcl hpc hnames hmonths
  simp only [processCity, hcrawler, extractAndHandle, hres, herr, hdet]
  simp

/-- C1 witness: with the previous cycle's snapshot `snapPrev` (JUN `"0"`)
in the store and the new reading `snapCur` (JUN `"3"`), diffing against the
pre-save record would emit an event, yet the pipeline emits none. -/
theorem save_then_detect_no_changes_witness :
    (envOk.cityResult "Toronto" = CityOutcome.ok snapCur)
      ∧ (sReady.crawler = some ())
      ∧ (snapCur.error = none)
      ∧ (snapCur.countries = some [cdCur])
      ∧ (([cdCur].map (fun c => c.country)).Nodup)
      ∧ (∀ cd ∈ [cdCur], (cd.slots.map Prod.fst).Nodup)
      ∧ (detectChangesPure (get_last_appointment_data sReady.store "Toronto") snapCur ≠ [])
      ∧ processCity [] envOk sReady "Toronto"
          = ({ sReady with
                store := save_appointment_data sReady.store "Toronto" snapCur envOk.now },
             [Ev.savedDoc "Toronto", Ev.detected "Toronto" []]) :=
  ⟨rfl, rfl, rfl, rfl, by decide, by decide, by decide,
   save_then_detect_no_changes [] envOk sReady "Toronto" snapCur [cdCur]
     rfl rfl rfl rfl (by decide) (by decide)⟩

/-- C2 counterexample: saving is a `$set` merge, not a replacement — after
storing a full snapshot for Toronto and then saving a minimal error
document `d`, `get_last_appointment_data` does not return `d`: the old
`countries` field survives the upsert. -/
theorem save_not_replace_counterexample :
    get_last_appointment_data
        (save_appointment_data [snapPrev] "Toronto" (errorDoc "Toronto" "boom" 99) 99)
        "Toronto"
      ≠ some (errorDoc "Toronto" "boom" 99) := by decide

/-- C2 (amended): `save_appointment_data` is an upsert keyed on the city
alone — it preserves the at-most-one-record-per-city invariant for every
city — and reading the city back yields the field-wise `$set` merge of the
prior record with the (normalized) document: the document's present fields
overwrite, prior fields absent from it persist, and the result equals the
document itself exactly when no prior record existed. -/
theorem save_upsert_per_city (st : Store) (city : String) (d : SnapshotDoc) (now : Int) :
    (∀ c' : String, st.countP (fun doc => doc.city == c') ≤ 1 →
        (save_appointment_data st city d now).countP (fun doc => doc.city == c') ≤ 1)
  ∧ get_last_appointment_data (save_appointment_data st city d now) city
      = some (match get_last_appointment_data st city with
              | none => normalizeSave city now d
              | some old => setMerge old (normalizeSave city now d)) :=
  ⟨fun c' h => countP_save_le st city d now c' h, get_last_save st city d now⟩

/-- C2 witness: the invariant part applied at a concrete one-record store. -/
theorem save_upsert_per_city_witness :
    (([snapPrev] : Store).countP (fun doc => doc.city == "Toronto") ≤ 1)
      ∧ (save_appointment_data [snapPrev] "Toronto" (errorDoc "Toronto" "boom" 99) 99).countP
          (fun doc => doc.city == "Toronto") ≤ 1 :=
  ⟨by decide,
   (save_upsert_per_city [snapPrev] "Toronto" (errorDoc "Toronto" "boom" 99) 99).1
     "Toronto" (by decide)⟩

/-- C3: the dispatch path cannot deliver anything — with a nonempty change
set and at least one user watching the city, `notify_users` raises
`TypeError` constructing `NotificationData` for its first change (the call
passes `country`/`message`/`change_type`/`url`, which the imported
dataclass does not accept, and omits its required `changes` field), before
the first `notify_user` call; the mismatch is derived from the two
transcribed keyword sets, and every non-raising run performs zero
deliveries, so no subscriber ever receives a notification and the
claimed country / subscription-window filtering is never exercised. -/
theorem notify_users_always_raises (users : List User) (city : String)
    (changes : List (String × Change))
    (hch : changes ≠ [])
    (hus : get_users_by_city users city ≠ []) :
    notify_users users city changes
        = Except.error "TypeError: NotificationData got an unexpected keyword argument"
      ∧ keywordCallOk notificationDataInitKeywords notify_users_callKeywords = false
      ∧ ∀ (users2 : List User) (city2 : String) (changes2 : List (String × Change))
          (sent : List (User × String)),
          notify_users users2 city2 changes2 = Except.ok sent → sent = [] := by
  have hkw : keywordCallOk notificationDataInitKeywords notify_users_callKeywords = false := by
    decide
  refine ⟨?_, hkw, ?_⟩
  · have h1 : changes.isEmpty = false := by
      cases changes with
      | nil => exact absurd rfl hch
      | cons a l => rfl
    have h2 : (get_users_by_city users city).isEmpty = false := by
      cases h : get_users_by_city users city with
      | nil => exact absurd h hus
      | cons a l => rfl
    unfold notify_users
    simp only [h1, h2, hkw, Bool.false_eq_true, if_false]
  · intro users2 city2 changes2 sent hok
    unfold notify_users at hok
    by_cases h1 : changes2.isEmpty = true
    · simp only [h1, if_true, Except.ok.injEq] at hok
      exact hok.symm
    · have h1' : changes2.isEmpty = false := by simpa using h1
      simp only [h1', Bool.false_eq_true, if_false] at hok
      by_cases h2 : (get_users_by_city users2 city2).isEmpty = true
      · simp only [h2, if_true, Except.ok.injEq] at hok
        exact hok.symm
      · have h2' : (get_users_by_city users2 city2).isEmpty = false := by simpa using h2
        simp only [h2', hkw, Bool.false_eq_true, if_false] at hok
        cases hok

/-- C3 witness: a Germany change for Toronto with one Toronto subscriber —
the dispatch raises and delivers nothing. -/
theorem notify_users_always_raises_witness :
    (([("Germany", chG)] : List (String × Change)) ≠ [])
      ∧ (get_users_by_city [uUnknown] "Toronto" ≠ [])
      ∧ (notify_users [uUnknown] "Toronto" [("Germany", chG)]
            = Except.error "TypeError: NotificationData got an unexpected keyword argument"
          ∧ keywordCallOk notificationDataInitKeywords notify_users_callKeywords = false
          ∧ ∀ (users2 : List User) (city2 : String) (changes2 : List (String × Change))
              (sent : List (User × String)),
              notify_users users2 city2 changes2 = Except.ok sent → sent = []) :=
  ⟨by decide, by decide,
   notify_users_always_raises [uUnknown] "Toronto" [("Germany", chG)]
     (by decide) (by decide)⟩

/-- C4 counterexample: a weekly subscriber whose window started at time 0
is still selected at exactly `start + 7 days`, although that instant lies
outside the half-open interval `[start, start + 7 days)` the claim
states. -/
theorem active_at_window_end_counterexample :
    get_active_subscriptions [uWeekly] "Toronto" "France" 604800 = [uWeekly]
      ∧ uWeekly.subscriptionType = "weekly"
      ∧ ¬ ((604800 : Int) < uWeekly.paymentDate + 7 * 86400) := by decide

/-- C5 counterexample: with no previous record, the event emitted for a
country with an available slot is of kind `new_availability`, not
`new_country`. -/
theorem detect_no_previous_kind_counterexample :
    detectChangesPure none snapF = [("France", newAvailabilityOf cdF)]
      ∧ (newAvailabilityOf cdF).type = ChangeType.new_availability
      ∧ ChangeType.new_availability ≠ ChangeType.new_country := by decide

/-- C5 (amended): with no previous snapshot recorded, detection emits
exactly one event per country having at least one truthy, non-`"0"` slot
value, each of kind `new_availability`, with no month field and carrying
the country's full slots map; countries without an available slot emit
nothing. -/
theorem detect_no_previous_events (current : SnapshotDoc) (cl : List CountryData)
    (hc : current.countries = some cl)
    (hnd : (cl.map (fun c => c.country)).Nodup) :
    detectChangesPure none current
      = (cl.filter (fun cd => anyAvailable cd.slots)).map
          (fun cd => (cd.country, newAvailabilityOf cd)) := by
  rw [detectChangesPure_none_eq current cl hc hnd]
  clear hc hnd
  induction cl with
  | nil => simp
  | cons cd tl ih =>
      by_cases h : anyAvailable cd.slots = true
      · have hn : newAvailabilityChange cd = some (newAvailabilityOf cd) := by
          simp [newAvailabilityChange, h]
        simp [List.filterMap_cons, hn, h, List.filter_cons, ih]
      · have h' : anyAvailable cd.slots = false := by simpa using h
        have hn : newAvailabilityChange cd = none := by
          simp [newAvailabilityChange, h']
        simp [List.filterMap_cons, hn, h', List.filter_cons, ih]

/-- C5 witness: the characterization applied to a one-country snapshot. -/
theorem detect_no_previous_events_witness :
    (snapF.countries = some [cdF])
      ∧ (([cdF].map (fun c => c.country)).Nodup)
      ∧ detectChangesPure none snapF
          = (([cdF].filter (fun cd => anyAvailable cd.slots)).map
              (fun cd => (cd.country, newAvailabilityOf cd))) :=
  ⟨rfl, by decide, detect_no_previous_events snapF [cdF] rfl (by decide)⟩

/-- C6: for a country present in both snapshots, detection scans the
current slots mapping in its insertion order (the tracked chronological
month order) and the first month whose parsed current value strictly
exceeds its parsed previous value yields exactly one
`increased_availability` change carrying that month and the previous/new
raw values, after which the scan stops; no month increase yields no
change, and the per-country dispatch records at most one change per
country. -/
theorem detect_increase_first_month
    (previous current : SnapshotDoc) (pl cl : List CountryData) (cd pcd : CountryData)
    (hp : previous.countries = some pl) (hc : current.countries = some cl)
    (hnd : (cl.map (fun c => c.country)).Nodup)
    (hcd : cd ∈ cl)
    (hfind : pl.find? (fun c => c.country == cd.country) = some pcd) :
    detectChangesPure (some previous) current
        = cl.filterMap (fun c => (countryChange pl c).map (fun ch => (c.country, ch)))
      ∧ countryChange pl cd = scanMonths cd pcd.slots
      ∧ scanMonths cd pcd.slots
          = (cd.slots.find?
               (fun p => decide (parseSlot (dictGet pcd.slots p.1) < parseSlot p.2))).map
              (fun p => increasedChange cd pcd.slots p.1 p.2) := by
  refine ⟨?_, ?_, ?_⟩
  · have h := detectChangesPure_some_eq previous current cl hc hnd
    rw [hp] at h
    simpa using h
  · unfold countryChange
    rw [hfind]
  · exact scanGo_eq_find? cd pcd.slots cd.slots

/-- C6 witness: the spec example — prev MAY `"2"`, JUN `"0"`; cur MAY
`"2"`, JUN `"3"` — yields exactly one `increased_availability` change,
for JUN. -/
theorem detect_increase_first_month_witness :
    (snapPrev.countries = some [cdPrev])
      ∧ (snapCur.countries = some [cdCur])
      ∧ (([cdCur].map (fun c => c.country)).Nodup)
      ∧ (cdCur ∈ [cdCur])
      ∧ ([cdPrev].find? (fun c => c.country == cdCur.country) = some cdPrev)
      ∧ (detectChangesPure (some snapPrev) snapCur
            = [cdCur].filterMap
                (fun c => (countryChange [cdPrev] c).map (fun ch => (c.country, ch)))
          ∧ countryChange [cdPrev] cdCur = scanMonths cdCur cdPrev.slots
          ∧ scanMonths cdCur cdPrev.slots
              = (cdCur.slots.find?
                   (fun p => decide (parseSlot (dictGet cdPrev.slots p.1) < parseSlot p.2))).map
                  (fun p => increasedChange cdCur cdPrev.slots p.1 p.2))
      ∧ detectChangesPure (some snapPrev) snapCur
          = [("France", increasedChange cdCur cdPrev.slots "JUN" (some "3"))] :=
  ⟨rfl, rfl, by decide, by decide, by decide,
   detect_increase_first_month snapPrev snapCur [cdPrev] [cdCur] cdCur cdPrev
     rfl rfl (by decide) (by decide) (by decide),
   by decide⟩

/-- C7: the `new_slots` branch is dead code — its guard
`cur > 0 and prev == 0` is checked strictly after `cur > prev`, which it
implies over the non-negative parsed values — so no change produced by
detection ever has type `new_slots`. -/
theorem detect_never_new_slots (previous : Option SnapshotDoc) (current : SnapshotDoc)
    (p : String × Change) (hp : p ∈ detectChangesPure previous current) :
    p.2.type ≠ ChangeType.new_slots
      ∧ ∀ cur prev : Nat, 0 < cur ∧ prev = 0 → prev < cur := by
  refine ⟨?_, by intro cur prev h; omega⟩
  cases previous with
  | none =>
      have h0 : detectChangesPure none current
          = (current.countries.getD []).foldl (applyCountry newAvailabilityChange) [] := rfl
      rw [h0] at hp
      exact foldl_applyCountry_types newAvailabilityChange
        (fun cd c h => newAvailabilityChange_type cd c h) _ []
        (by intro q hq; cases hq) p hp
  | some prev =>
      have h0 : detectChangesPure (some prev) current
          = (current.countries.getD []).foldl
              (applyCountry (countryChange (prev.countries.getD []))) [] := rfl
      rw [h0] at hp
      exact foldl_applyCountry_types (countryChange (prev.countries.getD []))
        (fun cd c h => countryChange_type (prev.countries.getD []) cd c h) _ []
        (by intro q hq; cases hq) p hp

/-- C7 witness: applied to the one event of the no-previous example. -/
theorem detect_never_new_slots_witness :
    (("France", newAvailabilityOf cdF) ∈ detectChangesPure none snapF)
      ∧ (("France", newAvailabilityOf cdF).2.type ≠ ChangeType.new_slots
          ∧ ∀ cur prev : Nat, 0 < cur ∧ prev = 0 → prev < cur) :=
  ⟨by decide,
   detect_never_new_slots none snapF ("France", newAvailabilityOf cdF) (by decide)⟩

/-- C8: single-flight cycle lock — while the lock is held with elapsed
time at most the 300-second staleness threshold, an invocation is a
complete no-op (state unchanged, no trace, no cycle run, nothing raised);
past the threshold it force-clears the in-progress flag and tears down the
crawler but still runs no new cycle. -/
theorem cycle_lock_single_flight (users : List User) (env : Env) (s : MonitorState)
    (t0 : Int)
    (hprog : s.monitoring_in_progress = true)
    (hstart : s.last_monitoring_start = some t0) :
    (env.now - t0 ≤ 300 →
        monitor_appointments users env s
          = { state := s, trace := [], ranCycle := false, raised := false })
  ∧ (300 < env.now - t0 →
        monitor_appointments users env s
          = { state := { s with monitoring_in_progress := false, crawler := none },
              trace := [], ranCycle := false, raised := false }) := by
  constructor
  · intro hle
    have hlt : ¬ (300 < env.now - t0) := by omega
    simp [monitor_appointments, hprog, hstart, hlt]
  · intro hgt
    simp [monitor_appointments, hprog, hstart, hgt]

/-- C8 witness: the lock held since time 0 — a no-op at clock 60, a
force-reset (without running a cycle) at clock 1000. -/
theorem cycle_lock_single_flight_witness :
    (sBusy.monitoring_in_progress = true)
      ∧ (sBusy.last_monitoring_start = some 0)
      ∧ monitor_appointments [] envOk sBusy
          = { state := sBusy, trace := [], ranCycle := false, raised := false }
      ∧ monitor_appointments [] envLate sBusy
          = { state := { sBusy with monitoring_in_progress := false, crawler := none },
              trace := [], ranCycle := false, raised := false } :=
  ⟨rfl, rfl,
   (cycle_lock_single_flight [] envOk sBusy 0 rfl rfl).1 (by decide),
   (cycle_lock_single_flight [] envLate sBusy 0 rfl rfl).2 (by decide)⟩

/-- C9: every invocation that acquires the cycle lock ends with the
in-progress flag cleared and the crawler reference cleared, and no
exception escapes the entry point — on every exit path, including a
failure escaping the batch loop (`Env.bodyFail`). -/
theorem cycle_always_releases (users : List User) (env : Env) (s : MonitorState)
    (hfree : s.monitoring_in_progress = false) :
    (monitor_appointments users env s).state.monitoring_in_progress = false
      ∧ (monitor_appointments users env s).state.crawler = none
      ∧ (monitor_appointments users env s).raised = false := by
  refine ⟨?_, ?_, ?_⟩ <;> simp [monitor_appointments, hfree]

/-- C9 witness: applied to an idle state with a failing batch loop. -/
theorem cycle_always_releases_witness :
    (sIdle.monitoring_in_progress = false)
      ∧ ((monitor_appointments [] envBody sIdle).state.monitoring_in_progress = false
          ∧ (monitor_appointments [] envBody sIdle).state.crawler = none
          ∧ (monitor_appointments [] envBody sIdle).raised = false) :=
  ⟨rfl, cycle_always_releases [] envBody sIdle rfl⟩

/-- C10: failure isolation in the batch loop — a crawler-initialization
failure on batch `i` contributes exactly a "skipped" trace and the run
continues with the following batches unchanged; an exception raised while
processing one city records an error snapshot for that city and the
remaining cities of the batch are still processed. -/
theorem batch_failure_isolation (users : List User) (env : Env) :
    (∀ (s : MonitorState) (i : Nat) (b : List (String × String))
        (rest : List (List (String × String))),
       env.setupOk i = false →
       runBatches users env s i (b :: rest)
         = ((runBatches users env { s with crawler := none } (i + 1) rest).1,
            Ev.batchStart i :: Ev.batchSkipped i
              :: (runBatches users env { s with crawler := none } (i + 1) rest).2))
  ∧ (∀ (s : MonitorState) (country city msg : String) (post : List (String × String)),
       s.crawler = some () →
       env.cityResult city = CityOutcome.raiseExc msg →
       runCities users env s ((country, city) :: post)
         = ((runCities users env (errorSaveState s city msg env.now) post).1,
            Ev.cityStart city :: Ev.cityError city msg
              :: (runCities users env (errorSaveState s city msg env.now) post).2)) := by
  constructor
  · intro s i b rest hfail
    simp [runBatches, runBatch, hfail]
  · intro s country city msg post hcr hres
    simp [runCities, processCity, extractAndHandle, hcr, hres]

/-- C10 witness: batch 0 skipped under a failing setup while the run goes
on, and a raising city followed by the rest of its batch. -/
theorem batch_failure_isolation_witness :
    (envFail.setupOk 0 = false)
      ∧ runBatches [] envFail sReady 0 [[("Canada", "Toronto")]]
          = ((runBatches [] envFail { sReady with crawler := none } 1 []).1,
             Ev.batchStart 0 :: Ev.batchSkipped 0
               :: (runBatches [] envFail { sReady with crawler := none } 1 []).2)
      ∧ (sReady.crawler = some ())
      ∧ (envFail.cityResult "Toronto" = CityOutcome.raiseExc "boom")
      ∧ runCities [] envFail sReady [("Canada", "Toronto")]
          = ((runCities [] envFail (errorSaveState sReady "Toronto" "boom" envFail.now) []).1,
             Ev.cityStart "Toronto" :: Ev.cityError "Toronto" "boom"
               :: (runCities [] envFail
                     (errorSaveState sReady "Toronto" "boom" envFail.now) []).2) :=
  ⟨by decide,
   (batch_failure_isolation [] envFail).1 sReady 0 [("Canada", "Toronto")] [] (by decide),
   rfl, rfl,
   (batch_failure_isolation [] envFail).2 sReady "Canada" "Toronto" "boom" [] rfl rfl⟩

end VisaSlot
